import Mathlib

/-!
Shallow embedding of the NeuralOS note-taking backend (`src/backend/main.py`)
and proofs about its documented behaviour.

Modelling conventions:
* The relational store (Supabase `notes` table) is a `List NoteRec`; `.eq`
  filters become `List.filter`, `.update` becomes a `List.map` that rewrites
  matching rows, `.delete` becomes a `List.filter` that drops them.
* Python exceptions are `Except HTTPError`.  Every endpoint body sits inside
  `try ... except Exception as e: raise HTTPException(500, str(e))`; that
  catch-all is `catchAll500`.  Crucially, FastAPI `HTTPException` is itself an
  `Exception`, so a 404 raised inside the `try` block is re-raised as a 500
  whose detail is `str(e) = "404: Note not found"`.
* Calendar dates (`datetime.date` values) are `Int` day numbers; the gap
  `(d1 - d2).days` is `d1 - d2`.  The outcome of
  `datetime.fromisoformat(a["created_at"].replace("Z", "+00:00")).date()` is
  modelled at the boundary as an `Option Int`: `some d` when parsing succeeds,
  `none` when it raises (the `except: continue` path).
* Python's `sorted(set(dates), reverse=True)` is `List.dedup` followed by a
  stable sort under `(· ≥ ·)`; on duplicate-free input this is the unique
  descending enumeration of the set, exactly what CPython produces.
* External collaborators (Pinecone query results, the OpenAI chat completion,
  float percentage formatting, Supabase failures) are parameters of small
  environment structures, mirroring the data that crosses the boundary.
-/

namespace NeuralOS

/-! ### Streak calculator (`calculate_streak`, main.py lines 542-567) -/

/-- The `for i in range(1, len(sorted_dates))` loop: `streak` starts at 1 and
grows while consecutive descending dates are exactly one day apart, stopping
at the first other gap. -/
def streakWalk : List Int → Nat
  | [] => 0
  | [_] => 1
  | a :: b :: rest => if a - b = 1 then 1 + streakWalk (b :: rest) else 1

/-- `sorted(set(dates), reverse=True)`: distinct dates in descending order. -/
def sortedDatesDesc (dates : List Int) : List Int :=
  (dates.dedup).insertionSort (· ≥ ·)

/-- `if not dates: return 0` followed by the walk over the sorted dates. -/
def streakOfDates (dates : List Int) : Nat :=
  if dates = [] then 0 else streakWalk (sortedDatesDesc dates)

/-- `calculate_streak(activities)`.  Each list entry is the parse outcome of
one activity record's `created_at` field (`none` when `fromisoformat`
raises and the record is skipped by `except: continue`). -/
def calculate_streak (activities : List (Option Int)) : Nat :=
  if activities = [] then 0
  else streakOfDates (activities.filterMap id)

/-! ### HTTP error model -/

/-- A FastAPI `HTTPException` carrying a status code and detail text. -/
structure HTTPError where
  status : Nat
  detail : String
deriving DecidableEq, Repr

/-- Starlette's `str(HTTPException)`: `f"{status_code}: {detail}"`. -/
def httpStr (e : HTTPError) : String :=
  toString e.status ++ ": " ++ e.detail

/-- The `except Exception as e: raise HTTPException(500, str(e))` pattern
wrapped around every endpoint body.  It also catches an `HTTPException`
raised inside the `try` block and re-raises it with status 500. -/
def catchAll500 {α : Type} (r : Except HTTPError α) : Except HTTPError α :=
  match r with
  | .ok a => .ok a
  | .error e => .error ⟨500, httpStr e⟩

/-! ### Note data model -/

/-- A row of the Supabase `notes` table (the `Note` pydantic model). -/
structure NoteRec where
  id : String
  user_id : String
  title : String
  content : String
  tags : List String
  is_favorite : Bool
  is_archived : Bool
  is_deleted : Bool
  created_at : String
  updated_at : String
deriving DecidableEq, Repr

/-- The `NoteUpdate` pydantic model: every field optional. -/
structure NoteUpdate where
  title : Option String
  content : Option String
  tags : Option (List String)
  is_favorite : Option Bool
  is_archived : Option Bool
  is_deleted : Option Bool
deriving DecidableEq, Repr

/-- The `.eq("id", note_id).eq("user_id", user_id)` row filter. -/
def matchesKey (note_id user_id : String) (n : NoteRec) : Bool :=
  n.id == note_id && n.user_id == user_id

/-- The Supabase row update with the `update_data` dict built by
`update_note`: `updated_at` is always rewritten, every other field only
when the corresponding `NoteUpdate` field is supplied. -/
def applyUpdate (u : NoteUpdate) (now : String) (n : NoteRec) : NoteRec :=
  { n with
    title := u.title.getD n.title
    content := u.content.getD n.content
    tags := u.tags.getD n.tags
    is_favorite := u.is_favorite.getD n.is_favorite
    is_archived := u.is_archived.getD n.is_archived
    is_deleted := u.is_deleted.getD n.is_deleted
    updated_at := now }

/-- Body of `PATCH /notes/{note_id}` (main.py lines 232-277) before the
catch-all.  Returns the updated table, the returned row (`result.data[0]`)
and whether the Pinecone re-embed/re-upsert branch ran
(`update.content is not None or update.title is not None`).
Raises 404 when the update matched no row (`if not result.data`). -/
def update_note_inner (store : List NoteRec) (note_id user_id : String)
    (u : NoteUpdate) (now : String) :
    Except HTTPError (List NoteRec × NoteRec × Bool) :=
  let store1 := store.map fun n =>
    if matchesKey note_id user_id n then applyUpdate u now n else n
  match store1.filter (matchesKey note_id user_id) with
  | [] => .error ⟨404, "Note not found"⟩
  | n0 :: _ => .ok (store1, n0, u.content.isSome || u.title.isSome)

/-- `PATCH /notes/{note_id}` including the catch-all handler. -/
def update_note (store : List NoteRec) (note_id user_id : String)
    (u : NoteUpdate) (now : String) :
    Except HTTPError (List NoteRec × NoteRec × Bool) :=
  catchAll500 (update_note_inner store note_id user_id u now)

/-- A `{"status": ..., "note_id": ...}` response object. -/
structure StatusResp where
  status : String
  note_id : String
deriving DecidableEq, Repr

/-- Body of `POST /notes/{note_id}/restore` (main.py lines 303-318) before
the catch-all: clears `is_deleted`, refreshes `updated_at`, raises 404 when
no row matched. -/
def restore_note_inner (store : List NoteRec) (note_id user_id now : String) :
    Except HTTPError (List NoteRec × StatusResp) :=
  let store1 := store.map fun n =>
    if matchesKey note_id user_id n then
      { n with is_deleted := false, updated_at := now }
    else n
  match store1.filter (matchesKey note_id user_id) with
  | [] => .error ⟨404, "Note not found"⟩
  | _ :: _ => .ok (store1, ⟨"restored", note_id⟩)

/-- `POST /notes/{note_id}/restore` including the catch-all handler. -/
def restore_note (store : List NoteRec) (note_id user_id now : String) :
    Except HTTPError (List NoteRec × StatusResp) :=
  catchAll500 (restore_note_inner store note_id user_id now)

/-- `DELETE /notes/{note_id}` (main.py lines 279-301).  `vec` is the set of
ids present in the Pinecone index; `pineconeFails` selects whether
`pinecone_index.delete` raises (that failure is swallowed by the inner
bare `except: pass`).  Neither branch inspects how many rows were affected,
so no 404 is ever raised. -/
def delete_note (store : List NoteRec) (vec : List String)
    (note_id user_id : String) (permanent : Bool) (now : String)
    (pineconeFails : Bool) :
    Except HTTPError (List NoteRec × List String × StatusResp) :=
  catchAll500 (
    if permanent then
      let store1 := store.filter fun n => !(matchesKey note_id user_id n)
      let vec1 := if pineconeFails then vec else vec.filter fun v => v ≠ note_id
      .ok (store1, vec1, ⟨"permanently_deleted", note_id⟩)
    else
      let store1 := store.map fun n =>
        if matchesKey note_id user_id n then
          { n with is_deleted := true, updated_at := now }
        else n
      .ok (store1, vec, ⟨"moved_to_trash", note_id⟩))

/-- `POST /notes/{note_id}/favorite` (main.py lines 320-340): read the
current flag of the matching row, write its negation together with a fresh
`updated_at`, and return the new flag. -/
def toggle_favorite (store : List NoteRec) (note_id user_id now : String) :
    Except HTTPError (List NoteRec × Bool) :=
  catchAll500 (
    match store.find? (matchesKey note_id user_id) with
    | none => .error ⟨404, "Note not found"⟩
    | some n =>
      let new_status := !n.is_favorite
      .ok (store.map fun m =>
            if matchesKey note_id user_id m then
              { m with is_favorite := new_status, updated_at := now }
            else m,
          new_status))

/-- `GET /notes` (main.py lines 180-214).  `ilike` is the Supabase
`ilike.%...%` text matcher, an external-store behaviour kept abstract; the
`search` filter only runs for a non-empty search string (`if search:`).
Ordering is by `created_at` descending (stable sort); `range(offset,
offset + limit - 1)` keeps `limit` rows starting at `offset`. -/
def get_notes (ilike : String → String → Bool) (store : List NoteRec)
    (user_id filter_type : String) (search : Option String)
    (limit offset : Nat) : List NoteRec :=
  let q0 := store.filter fun n => n.user_id == user_id
  let q1 :=
    if filter_type = "all" then
      q0.filter fun n => !n.is_deleted && !n.is_archived
    else if filter_type = "favorites" then
      q0.filter fun n => n.is_favorite && !n.is_deleted
    else if filter_type = "archived" then
      q0.filter fun n => n.is_archived && !n.is_deleted
    else if filter_type = "trash" then
      q0.filter fun n => n.is_deleted
    else q0
  let q2 :=
    match search with
    | some s => if s = "" then q1 else
        q1.filter fun n => ilike n.title s || ilike n.content s
    | none => q1
  let q3 := q2.insertionSort fun a b => b.created_at ≤ a.created_at
  (q3.drop offset).take limit

/-! ### Search service (`GET /search`, main.py lines 392-490) -/

/-- The `SearchResult` pydantic model.  Similarity scores are floats in the
source; they are carried opaquely here (no arithmetic is done on them
except formatting, which stays at the boundary), represented as `Int`. -/
structure SearchResult where
  id : String
  title : String
  text : String
  score : Int
  created_at : String
deriving DecidableEq, Repr

/-- The `AIResponse` pydantic model. -/
structure AIResponse where
  answer : String
  results : List SearchResult
deriving DecidableEq, Repr

/-- One Pinecone match: id, score, and the stored metadata fields, each
optional because the code reads them with `metadata.get(..., default)`. -/
structure MatchRec where
  id : String
  title : Option String
  text : Option String
  score : Int
  created_at : Option String
deriving DecidableEq, Repr

/-- The external collaborators of one `/search` request: the Pinecone query
result for this query/user (`search_results["matches"]`), the chat
completion provider (system prompt, user prompt ↦ answer text), and the
Python `f"{best_score:.0%}"` float formatting. -/
structure SearchEnv where
  searchMatches : List MatchRec
  chat : String → String → String
  fmtPct : Int → String

/-- The canned answer returned when Pinecone yields zero matches. -/
def noResultsAnswer : String :=
  "I couldn't find any notes matching your query. Try saving some notes first, or rephrase your question."

/-- The fixed system prompt of the AI analysis call. -/
def systemPrompt : String :=
  "You are an intelligent personal knowledge assistant helping users recall and act on their saved notes and ideas.\n\nYour role is to:\n1. Analyze the user's saved notes in relation to their query\n2. Provide helpful, actionable insights based on what they've recorded\n3. Connect ideas and identify patterns across their notes\n4. Suggest concrete next steps or actions they could take\n\nResponse Format:\n- Start with a brief summary of what you found (1-2 sentences)\n- Then provide 3-5 bullet points with specific insights, action items, or connections\n- Be encouraging and supportive while being specific and actionable\n- If notes are loosely related, still extract useful insights and suggest how they might connect to the query\n\nRemember: These are the user's own thoughts and goals. Help them make progress on what matters to them."

/-- The user prompt assembled from the context block, the query, and the
formatted best-match score. -/
def userPromptOf (context_text query pct : String) : String :=
  "User's saved notes:\n" ++ context_text ++ "\n\nUser's question: \"" ++ query
    ++ "\"\n\nRelevance score of best match: " ++ pct
    ++ "\n\nProvide a helpful analysis with actionable bullet points."

/-- `GET /search`.  Returns the `AIResponse` together with the number of
chat-completion calls made.  With zero matches the canned answer and an
empty result list are returned before the completion call; otherwise the
context block is assembled, the provider is invoked once, and each match is
formatted in ranking order.  (The best-effort `search_logs` insert has no
effect on the response and is omitted.) -/
def search_notes (env : SearchEnv) (query : String) : AIResponse × Nat :=
  match env.searchMatches with
  | [] => (⟨noResultsAnswer, []⟩, 0)
  | m0 :: _ =>
    let context_parts := env.searchMatches.map fun m =>
      "Title: " ++ m.title.getD "Untitled" ++ "\nContent: " ++ m.text.getD ""
    let context_text := String.intercalate "\n---\n" context_parts
    let answer := env.chat systemPrompt
      (userPromptOf context_text query (env.fmtPct m0.score))
    let results := env.searchMatches.map fun m =>
      SearchResult.mk m.id (m.title.getD "Untitled") (m.text.getD "")
        m.score (m.created_at.getD "")
    (⟨answer, results⟩, 1)

/-! ### Stats service (`GET /stats`, main.py lines 496-540) -/

/-- The `UserStats` pydantic model. -/
structure UserStats where
  total_notes : Nat
  favorites_count : Nat
  archived_count : Nat
  searches_this_week : Nat
  ai_insights : Nat
  streak : Nat
deriving DecidableEq, Repr

/-- Outcomes of the five backend queries issued by `get_user_stats`: the
three note counts (each an `Option Nat` because `.count` may be null, read
with `or 0`), the 7-day search-log count, and the 30 most recent
note-creation activity records (each already reduced to its `created_at`
parse outcome, as in `calculate_streak`).  `.error` means the call raised. -/
structure StatsEnv where
  total : Except String (Option Nat)
  favorites : Except String (Option Nat)
  archived : Except String (Option Nat)
  searches : Except String (Option Nat)
  activities : Except String (List (Option Int))
deriving Repr

/-- The zero-filled report built by the outer `except` handler. -/
def zeroStats : UserStats := ⟨0, 0, 0, 0, 0, 0⟩

/-- `GET /stats`.  Only the search count and the streak have their own inner
`try/except` (substituting 0); the three count queries run bare inside the
outer `try`, whose handler returns the all-zero report.  `ai_insights` is
assigned the same `search_count` value as `searches_this_week`. -/
def get_user_stats (env : StatsEnv) : UserStats :=
  match env.total, env.favorites, env.archived with
  | .ok total, .ok favorites, .ok archived =>
    let search_count :=
      match env.searches with
      | .ok c => c.getD 0
      | .error _ => 0
    let streak :=
      match env.activities with
      | .ok acts => if acts.isEmpty then 0 else calculate_streak acts
      | .error _ => 0
    ⟨total.getD 0, favorites.getD 0, archived.getD 0,
      search_count, search_count, streak⟩
  | _, _, _ => zeroStats

/-- Projection used to state that `delete_note` always reports success. -/
def statusOfDelete
    (r : Except HTTPError (List NoteRec × List String × StatusResp)) :
    Option StatusResp :=
  match r with
  | .ok x => some x.2.2
  | .error _ => none

/-! ### Shared lemmas -/

/-- `calculate_streak` is the streak of the successfully parsed dates: the
leading `if not activities` check is redundant with the `if not dates`
check inside `streakOfDates`. -/
lemma calculate_streak_eq (l : List (Option Int)) :
    calculate_streak l = streakOfDates (l.filterMap id) := by
  cases l with
  | nil => rfl
  | cons a l => rfl

/-- Sorting the date set of an already strictly-descending list returns
that list unchanged. -/
lemma sortedDatesDesc_eq_self {l : List Int} (h : l.Sorted (· > ·)) :
    sortedDatesDesc l = l := by
  have hnd : l.Nodup := h.nodup
  have h1 : l.dedup = l := List.dedup_eq_self.2 hnd
  have h2 : l.Sorted (· ≥ ·) := h.imp le_of_lt
  unfold sortedDatesDesc
  rw [h1]
  exact List.eq_of_perm_of_sorted (List.perm_insertionSort _ l)
    (List.sorted_insertionSort _ l) h2

/-- Dropping the unparseable records does not change which dates parse. -/
lemma filterMap_id_filter_isSome (l : List (Option Int)) :
    (l.filter fun a => a.isSome).filterMap id = l.filterMap id := by
  induction l with
  | nil => rfl
  | cons a t ih =>
    cases a with
    | none => simpa using ih
    | some x => simpa using ih

/-! ### C1: the streak algorithm -/

/-- C1: the streak calculator reduces activity records to a set of distinct
calendar dates, returns 0 on the empty set, and otherwise walks the
descending dates counting exactly the leading run of one-day gaps: the date
set \x7bD, D-1, D-2, D-5\x7d yields 3, a single date yields 1, duplicate dates
collapse before comparison (two records of the same date behave as one),
and the empty record list yields 0. -/
theorem streak_algorithm_claim (D : Int) :
    calculate_streak [some D, some (D - 1), some (D - 2), some (D - 5)] = 3 ∧
    calculate_streak [some D] = 1 ∧
    calculate_streak [some D, some D] = 1 ∧
    calculate_streak ([] : List (Option Int)) = 0 := by
  refine ⟨?_, ?_, ?_, rfl⟩
  · have hs : ([D, D - 1, D - 2, D - 5] : List Int).Sorted (· > ·) := by
      simp [List.sorted_cons]
    rw [calculate_streak_eq]
    have hfm : ([some D, some (D - 1), some (D - 2), some (D - 5)] :
        List (Option Int)).filterMap id = [D, D - 1, D - 2, D - 5] := by simp
    rw [hfm]
    unfold streakOfDates
    rw [if_neg (by simp), sortedDatesDesc_eq_self hs]
    show streakWalk (D :: (D - 1) :: (D - 2) :: (D - 5) :: []) = 3
    rw [streakWalk, if_pos (by omega), streakWalk, if_pos (by omega),
        streakWalk, if_neg (by omega)]
  · rw [calculate_streak_eq]
    have hfm : ([some D] : List (Option Int)).filterMap id = [D] := by simp
    rw [hfm]
    unfold streakOfDates
    rw [if_neg (by simp), sortedDatesDesc_eq_self (by simp)]
    rfl
  · rw [calculate_streak_eq]
    have hfm : ([some D, some D] : List (Option Int)).filterMap id = [D, D] := by
      simp
    rw [hfm]
    unfold streakOfDates
    rw [if_neg (by simp)]
    have hdd : sortedDatesDesc [D, D] = [D] := by
      unfold sortedDatesDesc
      have h1 : ([D, D] : List Int).dedup = [D] := by
        simp [List.dedup_cons_of_mem, List.mem_singleton]
      rw [h1]
      rfl
    rw [hdd]
    rfl

/-! ### C10: malformed timestamps are skipped -/

/-- C10: the streak calculator silently skips every activity record whose
`created_at` fails to parse (restricting the input to the parseable records
leaves the result unchanged), and returns 0 when no record parses.  The
embedding is a total function, so no input can make it raise. -/
theorem streak_skips_unparseable (activities : List (Option Int)) :
    calculate_streak (activities.filter fun a => a.isSome)
        = calculate_streak activities ∧
    ((∀ a ∈ activities, a = none) → calculate_streak activities = 0) := by
  constructor
  · rw [calculate_streak_eq, calculate_streak_eq, filterMap_id_filter_isSome]
  · intro h
    rw [calculate_streak_eq]
    have hfm : activities.filterMap id = [] := by
      rw [List.filterMap_eq_nil_iff]
      intro a ha
      rw [h a ha]
      rfl
    rw [hfm]
    rfl

/-- Witness for C10 at a concrete input: two unparseable records give
streak 0. -/
theorem streak_skips_unparseable_witness :
    calculate_streak [none, none] = 0 :=
  (streak_skips_unparseable [none, none]).2 (by simp)

/-! ### C2: missing note on update/restore -/

/-- C2 (code bug): for a note id and owner matching no stored record, both
`update_note` and `restore_note` do raise `HTTPException(404, "Note not
found")` inside their `try` blocks, but the blanket `except Exception`
handler catches that very exception and re-raises it as status 500 with
detail `str(e) = "404: Note not found"`, so the client receives HTTP 500,
not 404.  This theorem evaluates both endpoints at such an input (an empty
notes table). -/
theorem update_restore_missing_note_gives_500 :
    update_note [] "n1" "u1" ⟨some "T", none, none, none, none, none⟩
        "2024-01-02T00:00:00" = .error ⟨500, "404: Note not found"⟩ ∧
    restore_note [] "n1" "u1" "2024-01-02T00:00:00"
        = .error ⟨500, "404: Note not found"⟩ := by
  constructor <;> rfl

/-! ### C3: zero-match search short-circuit -/

/-- C3: whenever the vector query returns zero matches, the search endpoint
returns the fixed no-results answer with an empty result list and performs
zero chat-completion calls. -/
theorem search_zero_matches_claim (env : SearchEnv) (query : String)
    (h : env.searchMatches = []) :
    search_notes env query = (⟨noResultsAnswer, []⟩, 0) := by
  unfold search_notes
  rw [h]

/-- Witness for C3: a concrete environment with no matches. -/
theorem search_zero_matches_witness :
    search_notes ⟨[], fun _ _ => "llm answer", fun _ => "0%"⟩ "my query"
      = (⟨noResultsAnswer, []⟩, 0) :=
  search_zero_matches_claim ⟨[], fun _ _ => "llm answer", fun _ => "0%"⟩
    "my query" rfl

/-! ### C4: partial-update semantics -/

/-- `update_note` either fails with the wrapped not-found error or succeeds
with the re-embed flag exactly equal to "title or content supplied". -/
lemma update_note_cases (store : List NoteRec) (note_id user_id : String)
    (u : NoteUpdate) (now : String) :
    update_note store note_id user_id u now
        = .error ⟨500, httpStr ⟨404, "Note not found"⟩⟩ ∨
    ∃ st m, update_note store note_id user_id u now
        = .ok (st, m, u.content.isSome || u.title.isSome) := by
  unfold update_note update_note_inner catchAll500
  cases hd : (store.map fun n =>
      if matchesKey note_id user_id n then applyUpdate u now n else n).filter
      (matchesKey note_id user_id) with
  | nil =>
    left
    simp only [hd]
  | cons a t =>
    right
    refine ⟨store.map fun n =>
      if matchesKey note_id user_id n then applyUpdate u now n else n, a, ?_⟩
    simp only [hd]

/-- C4: a partial update changes exactly the supplied fields (each merged
field equals the supplied value when present and the prior value otherwise,
while id, owner and creation timestamp are untouched), always refreshes the
last-modified timestamp, and the vector re-embed/re-upsert branch runs if
and only if title or content was supplied; in particular a tags-only update
leaves title and content unchanged and triggers no re-embedding. -/
theorem partial_update_claim (n : NoteRec) (u : NoteUpdate) (now : String) :
    (applyUpdate u now n).updated_at = now ∧
    (applyUpdate u now n).title = u.title.getD n.title ∧
    (applyUpdate u now n).content = u.content.getD n.content ∧
    (applyUpdate u now n).tags = u.tags.getD n.tags ∧
    (applyUpdate u now n).is_favorite = u.is_favorite.getD n.is_favorite ∧
    (applyUpdate u now n).is_archived = u.is_archived.getD n.is_archived ∧
    (applyUpdate u now n).is_deleted = u.is_deleted.getD n.is_deleted ∧
    (applyUpdate u now n).id = n.id ∧
    (applyUpdate u now n).user_id = n.user_id ∧
    (applyUpdate u now n).created_at = n.created_at ∧
    (∀ store note_id user_id,
      update_note store note_id user_id u now
          = .error ⟨500, httpStr ⟨404, "Note not found"⟩⟩ ∨
      ∃ st m, update_note store note_id user_id u now
          = .ok (st, m, u.content.isSome || u.title.isSome)) ∧
    (∀ ts : List String,
      (applyUpdate ⟨none, none, some ts, none, none, none⟩ now n).title
          = n.title ∧
      (applyUpdate ⟨none, none, some ts, none, none, none⟩ now n).content
          = n.content ∧
      (applyUpdate ⟨none, none, some ts, none, none, none⟩ now n).tags = ts ∧
      ((⟨none, none, some ts, none, none, none⟩ : NoteUpdate).content.isSome
        || (⟨none, none, some ts, none, none, none⟩ :
              NoteUpdate).title.isSome) = false) := by
  refine ⟨rfl, rfl, rfl, rfl, rfl, rfl, rfl, rfl, rfl, rfl, ?_, ?_⟩
  · intro store note_id user_id
    exact update_note_cases store note_id user_id u now
  · intro ts
    exact ⟨rfl, rfl, rfl, rfl⟩

/-! ### C5: stats error handling -/

/-- A stats environment where the total-notes count succeeds with 5 but the
favorites count raises: only `searches` and `streak` have inner handlers in
the code, so this failure reaches the outer handler. -/
def statsEnvPartialFail : StatsEnv :=
  ⟨.ok (some 5), .error "favorites query failed", .ok (some 1),
    .ok (some 2), .ok []⟩

/-- C5 counterexample: the claim says an individual aggregation failure
substitutes zero for that field alone with the remaining fields still
computed; but when the favorites count fails while the total count
succeeded with 5, the code returns the all-zero report, reporting
`total_notes = 0` instead of 5. -/
theorem stats_zero_fill_counterexample :
    statsEnvPartialFail.total = .ok (some 5) ∧
    get_user_stats statsEnvPartialFail = zeroStats ∧
    (get_user_stats statsEnvPartialFail).total_notes = 0 :=
  ⟨rfl, rfl, rfl⟩

/-- C5 (amended): the stats operation never signals an error, but only the
search-count and streak aggregations are individually isolated (zero is
substituted for that field alone, the others still computed); a failure of
any of the three note-count aggregations reaches the outer handler, which
returns the all-zero report — in particular a total backend outage yields
all-zero `UserStats`. -/
theorem stats_error_handling_amended (env : StatsEnv) :
    ((env.total.isOk = false ∨ env.favorites.isOk = false ∨
        env.archived.isOk = false) → get_user_stats env = zeroStats) ∧
    (∀ t f a, env.total = .ok t → env.favorites = .ok f →
        env.archived = .ok a →
      (get_user_stats env).total_notes = t.getD 0 ∧
      (get_user_stats env).favorites_count = f.getD 0 ∧
      (get_user_stats env).archived_count = a.getD 0 ∧
      (env.searches.isOk = false →
        (get_user_stats env).searches_this_week = 0 ∧
        (get_user_stats env).ai_insights = 0) ∧
      (∀ s, env.searches = .ok s →
        (get_user_stats env).searches_this_week = s.getD 0) ∧
      (env.activities.isOk = false → (get_user_stats env).streak = 0) ∧
      (∀ acts, env.activities = .ok acts →
        (get_user_stats env).streak
          = if acts.isEmpty then 0 else calculate_streak acts)) := by
  obtain ⟨t0, f0, a0, s0, ac0⟩ := env
  constructor
  · intro h
    rcases t0 with e | t
    · rfl
    rcases f0 with e | f
    · rfl
    rcases a0 with e | a
    · rfl
    exfalso
    rcases h with h | h | h <;> simp [Except.isOk, Except.toBool] at h
  · intro t f a ht hf ha
    cases ht
    cases hf
    cases ha
    refine ⟨rfl, rfl, rfl, ?_, ?_, ?_, ?_⟩
    · intro hs
      rcases s0 with e | s
      · exact ⟨rfl, rfl⟩
      · simp [Except.isOk, Except.toBool] at hs
    · intro s hs
      cases hs
      rfl
    · intro hac
      rcases ac0 with e | acts
      · rfl
      · simp [Except.isOk, Except.toBool] at hac
    · intro acts hac
      cases hac
      rfl

/-- Witness for C5 (amended) at a concrete input: a total outage (every
backend call failing) yields the all-zero report. -/
theorem stats_error_handling_witness :
    get_user_stats ⟨.error "db down", .error "db down", .error "db down",
        .error "db down", .error "db down"⟩ = zeroStats :=
  (stats_error_handling_amended
    ⟨.error "db down", .error "db down", .error "db down",
      .error "db down", .error "db down"⟩).1 (Or.inl rfl)

/-! ### C6: listing filter semantics -/

/-- Rows surviving both drop and take were in the sorted list. -/
lemma mem_of_mem_page {l : List NoteRec} {limit offset : Nat} {n : NoteRec}
    (h : n ∈ (l.drop offset).take limit) : n ∈ l :=
  List.drop_subset _ _ (List.take_subset _ _ h)

/-- `get_notes` with `filter_type="trash"` and no text search is the
descending-by-`created_at` page of the owner's deleted rows. -/
lemma get_notes_trash_eq (ilike : String → String → Bool)
    (store : List NoteRec) (user_id : String) (limit offset : Nat) :
    get_notes ilike store user_id "trash" none limit offset
      = (((((store.filter fun n => n.user_id == user_id).filter
            fun n => n.is_deleted).insertionSort
              fun a b => b.created_at ≤ a.created_at).drop offset).take
          limit) := rfl

/-- `get_notes` with `filter_type="all"` and no text search is the
descending-by-`created_at` page of the owner's non-deleted, non-archived
rows. -/
lemma get_notes_all_eq (ilike : String → String → Bool)
    (store : List NoteRec) (user_id : String) (limit offset : Nat) :
    get_notes ilike store user_id "all" none limit offset
      = (((((store.filter fun n => n.user_id == user_id).filter
            fun n => !n.is_deleted && !n.is_archived).insertionSort
              fun a b => b.created_at ≤ a.created_at).drop offset).take
          limit) := rfl

/-- C6: `filter_type=trash` returns exactly the owner's notes with
`deleted=true` regardless of their favorite and archived flags — every
returned note is a deleted note of the owner, and (whenever the page is
large enough to hold the store, at offset 0) every deleted note of the
owner is returned, whatever its other flags; `filter_type=all` returns
only notes with both `deleted=false` and `archived=false`. -/
theorem notes_filter_claim (ilike : String → String → Bool)
    (store : List NoteRec) (user_id : String) (limit : Nat) :
    (∀ offset : Nat,
      ∀ n ∈ get_notes ilike store user_id "trash" none limit offset,
        n.user_id = user_id ∧ n.is_deleted = true) ∧
    (store.length ≤ limit →
      ∀ n ∈ store, n.user_id = user_id → n.is_deleted = true →
        n ∈ get_notes ilike store user_id "trash" none limit 0) ∧
    (∀ offset : Nat,
      ∀ n ∈ get_notes ilike store user_id "all" none limit offset,
        n.user_id = user_id ∧ n.is_deleted = false ∧
        n.is_archived = false) := by
  refine ⟨?_, ?_, ?_⟩
  · intro offset n hn
    rw [get_notes_trash_eq] at hn
    have h1 : n ∈ (store.filter fun m => m.user_id == user_id).filter
        fun m => m.is_deleted :=
      (List.perm_insertionSort _ _).mem_iff.1 (mem_of_mem_page hn)
    have h2 := List.mem_filter.1 h1
    have h3 := List.mem_filter.1 h2.1
    exact ⟨by simpa using h3.2, by simpa using h2.2⟩
  · intro hlen n hn hu hd
    rw [get_notes_trash_eq]
    have h1 : n ∈ (store.filter fun m => m.user_id == user_id).filter
        fun m => m.is_deleted :=
      List.mem_filter.2 ⟨List.mem_filter.2 ⟨hn, by simp [hu]⟩, by simp [hd]⟩
    have hperm := List.perm_insertionSort
      (fun a b : NoteRec => b.created_at ≤ a.created_at)
      ((store.filter fun m => m.user_id == user_id).filter
        fun m => m.is_deleted)
    have hlen2 : (((store.filter fun m => m.user_id == user_id).filter
        fun m => m.is_deleted).insertionSort
          fun a b => b.created_at ≤ a.created_at).length ≤ limit := by
      rw [hperm.length_eq]
      exact le_trans (List.length_filter_le _ _)
        (le_trans (List.length_filter_le _ _) hlen)
    rw [List.drop_zero, List.take_of_length_le hlen2]
    exact hperm.mem_iff.2 h1
  · intro offset n hn
    rw [get_notes_all_eq] at hn
    have h1 : n ∈ (store.filter fun m => m.user_id == user_id).filter
        fun m => !m.is_deleted && !m.is_archived :=
      (List.perm_insertionSort _ _).mem_iff.1 (mem_of_mem_page hn)
    have h2 := List.mem_filter.1 h1
    have h3 := List.mem_filter.1 h2.1
    have h4 : (!n.is_deleted && !n.is_archived) = true := h2.2
    refine ⟨by simpa using h3.2, ?_, ?_⟩
    · simpa using (Bool.and_eq_true_iff.1 h4).1
    · simpa using (Bool.and_eq_true_iff.1 h4).2

/-- Witness for C6 at a concrete input: a deleted note that is also marked
favorite and archived still appears in the trash listing. -/
theorem notes_filter_witness :
    (⟨"n1", "u1", "T", "C", [], true, true, true, "d1", "d2"⟩ : NoteRec)
      ∈ get_notes (fun _ _ => false)
        [⟨"n1", "u1", "T", "C", [], true, true, true, "d1", "d2"⟩]
        "u1" "trash" none 50 0 :=
  (notes_filter_claim (fun _ _ => false)
      [⟨"n1", "u1", "T", "C", [], true, true, true, "d1", "d2"⟩]
      "u1" 50).2.1 (by decide)
    ⟨"n1", "u1", "T", "C", [], true, true, true, "d1", "d2"⟩
    (by simp) rfl rfl

/-! ### C7: toggle-favorite is self-inverse -/

/-- Rewriting the matching rows of the table with a key-preserving row
function maps the found row through that function. -/
lemma find?_row_update (store : List NoteRec) (p : NoteRec → Bool)
    (g : NoteRec → NoteRec) (hg : ∀ m, p (g m) = p m) :
    (store.map fun m => if p m then g m else m).find? p
      = (store.find? p).map g := by
  induction store with
  | nil => rfl
  | cons a t ih =>
    by_cases h : p a = true
    · rw [List.map_cons, if_pos h,
        List.find?_cons_of_pos _ (by rw [hg]; exact h),
        List.find?_cons_of_pos _ h]
      rfl
    · rw [List.map_cons, if_neg h,
        List.find?_cons_of_neg _ (by simpa using h),
        List.find?_cons_of_neg _ (by simpa using h), ih]

/-- Specialisation of `find?_row_update` to the favorite-flag row write. -/
lemma find?_fav_update (store : List NoteRec) (note_id user_id : String)
    (b : Bool) (now : String) :
    (store.map fun m =>
        if matchesKey note_id user_id m then
          { m with is_favorite := b, updated_at := now }
        else m).find? (matchesKey note_id user_id)
      = (store.find? (matchesKey note_id user_id)).map
          fun m => { m with is_favorite := b, updated_at := now } :=
  find?_row_update store (matchesKey note_id user_id)
    (fun m => { m with is_favorite := b, updated_at := now })
    (fun _ => rfl)

/-- C7: toggling the favorite flag twice in immediate, non-concurrent
sequence returns the flag to its original value: for a stored note `n`,
the first call returns `!n.is_favorite`, the second returns
`n.is_favorite`, and the note stored afterwards carries its original
favorite flag. -/
theorem toggle_favorite_twice_claim (store : List NoteRec)
    (note_id user_id now1 now2 : String) (n : NoteRec)
    (h : store.find? (matchesKey note_id user_id) = some n) :
    ∃ st1 st2 n2,
      toggle_favorite store note_id user_id now1 = .ok (st1, !n.is_favorite) ∧
      toggle_favorite st1 note_id user_id now2 = .ok (st2, n.is_favorite) ∧
      st2.find? (matchesKey note_id user_id) = some n2 ∧
      n2.is_favorite = n.is_favorite := by
  have h1 : toggle_favorite store note_id user_id now1
      = .ok (store.map fun m =>
          if matchesKey note_id user_id m then
            { m with is_favorite := !n.is_favorite, updated_at := now1 }
          else m, !n.is_favorite) := by
    unfold toggle_favorite catchAll500
    rw [h]
  have h2 : (store.map fun m =>
      if matchesKey note_id user_id m then
        { m with is_favorite := !n.is_favorite, updated_at := now1 }
      else m).find? (matchesKey note_id user_id)
      = some { n with is_favorite := !n.is_favorite, updated_at := now1 } := by
    rw [find?_fav_update, h]
    rfl
  have h3 : toggle_favorite (store.map fun m =>
      if matchesKey note_id user_id m then
        { m with is_favorite := !n.is_favorite, updated_at := now1 }
      else m) note_id user_id now2
      = .ok ((store.map fun m =>
          if matchesKey note_id user_id m then
            { m with is_favorite := !n.is_favorite, updated_at := now1 }
          else m).map fun m =>
            if matchesKey note_id user_id m then
              { m with is_favorite := n.is_favorite, updated_at := now2 }
            else m, n.is_favorite) := by
    unfold toggle_favorite catchAll500
    rw [h2]
    simp only [Bool.not_not]
  have h4 : ((store.map fun m =>
      if matchesKey note_id user_id m then
        { m with is_favorite := !n.is_favorite, updated_at := now1 }
      else m).map fun m =>
        if matchesKey note_id user_id m then
          { m with is_favorite := n.is_favorite, updated_at := now2 }
        else m).find? (matchesKey note_id user_id)
      = some { n with is_favorite := n.is_favorite, updated_at := now2 } := by
    rw [find?_fav_update, h2]
    rfl
  exact ⟨_, _, _, h1, h3, h4, rfl⟩

/-- Witness for C7 at a concrete input: a singleton store holding one
non-favorite note. -/
theorem toggle_favorite_twice_witness :
    ∃ st1 st2 n2,
      toggle_favorite
          [⟨"n1", "u1", "T", "C", [], false, false, false, "d1", "d1"⟩]
          "n1" "u1" "t1"
        = .ok (st1,
            !(⟨"n1", "u1", "T", "C", [], false, false, false, "d1",
                "d1"⟩ : NoteRec).is_favorite) ∧
      toggle_favorite st1 "n1" "u1" "t2"
        = .ok (st2,
            (⟨"n1", "u1", "T", "C", [], false, false, false, "d1",
                "d1"⟩ : NoteRec).is_favorite) ∧
      st2.find? (matchesKey "n1" "u1") = some n2 ∧
      n2.is_favorite
        = (⟨"n1", "u1", "T", "C", [], false, false, false, "d1",
            "d1"⟩ : NoteRec).is_favorite :=
  toggle_favorite_twice_claim
    [⟨"n1", "u1", "T", "C", [], false, false, false, "d1", "d1"⟩]
    "n1" "u1" "t1" "t2"
    ⟨"n1", "u1", "T", "C", [], false, false, false, "d1", "d1"⟩ rfl

/-! ### C8: `ai_insights` mirrors `searches_this_week` -/

/-- C8: every stats report carries `ai_insights` equal to
`searches_this_week` — both are assigned the same `search_count` value, so
`ai_insights` carries no independent information. -/
theorem ai_insights_equals_searches (env : StatsEnv) :
    (get_user_stats env).ai_insights
      = (get_user_stats env).searches_this_week := by
  obtain ⟨t0, f0, a0, s0, ac0⟩ := env
  cases t0 <;> cases f0 <;> cases a0 <;> rfl

/-! ### C9: delete never signals NotFound -/

/-- C9: soft- and hard-delete return a success status object for every note
id and owner — including ids matching no stored record — without checking
whether any row was affected: the reported status is `moved_to_trash` or
`permanently_deleted` with the requested note id, never an error. -/
theorem delete_always_succeeds (store : List NoteRec) (vec : List String)
    (note_id user_id : String) (permanent : Bool) (now : String)
    (pineconeFails : Bool) :
    statusOfDelete
        (delete_note store vec note_id user_id permanent now pineconeFails)
      = some (if permanent then ⟨"permanently_deleted", note_id⟩
              else ⟨"moved_to_trash", note_id⟩) := by
  cases permanent <;> rfl

end NeuralOS
